import Mathlib

/-!
Formal model of `src/contracts/src/SimpleEscrow.sol` (contract `SimpleEscrow`).

Addresses and timestamps are modelled as `Nat` (the zero address is `0`),
wei amounts as `Nat`.  The contract's storage (`_escrowIdCounter`, the
`_escrows` mapping, and the contract's ETH balance) is the `Ledger`
structure; the mapping is an association list whose absent keys behave
like Solidity's zero-initialised struct (`buyer = 0`, which every function
treats as "not found").

Each external function is a Lean function from its arguments and the
pre-call ledger to `Except Err Ledger`.  Solidity `revert` aborts the call
frame and the EVM restores the pre-call storage, so an `.error` outcome
carries no post-state: the observable post-state of a reverted call is the
unchanged pre-call ledger (made explicit by the `..Call` wrappers below).
The outbound low-level `call{value: ...}` is an external transfer whose
success is an oracle parameter `transferOk`.

The contract inherits OpenZeppelin's `ReentrancyGuard` and every mutating
function is `nonReentrant`: the modifier's status flag is the `entered`
parameter, checked before the function body, and a nested call made while
a transfer is in flight sees `entered = true` and reverts with the guard's
own error `ReentrancyGuardReentrantCall` (OpenZeppelin
`utils/ReentrancyGuard.sol`), which is distinct from every error the
contract itself declares.  Top-level calls always run with
`entered = false` since the guard resets when the outer frame finishes.
-/

namespace SimpleEscrow

/-- States of an escrow record (`enum EscrowState`, lines 21-25). -/
inductive EscrowState where
  | Active
  | Released
  | Refunded
deriving DecidableEq, Repr

/-- One escrow record (`struct Escrow`, lines 30-36). -/
structure Escrow where
  buyer : Nat
  seller : Nat
  amount : Nat
  createdAt : Nat
  state : EscrowState
deriving DecidableEq, Repr

/-- Revert reasons: the eight custom errors declared by the contract
(lines 83-104) plus the error raised by the inherited OpenZeppelin
reentrancy guard when a nested call is attempted. -/
inductive Err where
  | InvalidSeller
  | InvalidAmount
  | AmountMismatch
  | EscrowNotFound
  | EscrowNotActive
  | OnlyBuyer
  | RefundNotAllowed
  | TransferFailed
  | ReentrancyGuardReentrantCall
deriving DecidableEq, Repr

/-- Equality of call results is decidable, so concrete runs of the model
can be checked by evaluation. -/
instance {ε α : Type} [DecidableEq ε] [DecidableEq α] : DecidableEq (Except ε α) :=
  fun x y =>
    match x, y with
    | .ok a, .ok b =>
        if h : a = b then .isTrue (by rw [h])
        else .isFalse (by intro hc; cases hc; exact h rfl)
    | .ok _, .error _ => .isFalse (by intro hc; cases hc)
    | .error _, .ok _ => .isFalse (by intro hc; cases hc)
    | .error e, .error f =>
        if h : e = f then .isTrue (by rw [h])
        else .isFalse (by intro hc; cases hc; exact h rfl)

/-- Constant `ESCROW_TIMEOUT = 24 hours` (line 16), in seconds. -/
def ESCROW_TIMEOUT : Nat := 24 * 60 * 60

/-- The contract's storage plus its ETH balance: `_escrowIdCounter`
(line 41), the `_escrows` mapping (line 44) as an association list, and
the contract's custodied balance. -/
structure Ledger where
  escrowIdCounter : Nat
  escrows : List (Nat × Escrow)
  balance : Nat
deriving DecidableEq, Repr

/-- Storage of a freshly deployed contract: counter 0, empty mapping,
zero balance. -/
def initLedger : Ledger := ⟨0, [], 0⟩

/-- Reading the `_escrows` mapping: the stored record for `escrowId`, or
`none` when the slot was never written (Solidity then yields the
zero-initialised struct, which the contract treats as absent). -/
def findEscrow (escrowId : Nat) : List (Nat × Escrow) → Option Escrow
  | [] => none
  | (k, v) :: rest => if k = escrowId then some v else findEscrow escrowId rest

/-- Writing the `_escrows` mapping: replaces the record stored at
`escrowId`, leaving every other slot unchanged. -/
def setEscrow (escrowId : Nat) (e : Escrow) : List (Nat × Escrow) → List (Nat × Escrow)
  | [] => []
  | (k, v) :: rest =>
      if k = escrowId then (k, e) :: rest else (k, v) :: setEscrow escrowId e rest

/-- Sum of `amount` over the records whose state is `Active`. -/
def activeSum : List (Nat × Escrow) → Nat
  | [] => 0
  | (_, e) :: rest => (if e.state = .Active then e.amount else 0) + activeSum rest

/-- Function `createEscrow(seller, amount)` (lines 114-136).  `caller` is
`msg.sender`, `fundsProvided` is `msg.value` (credited to the contract's
balance on success), `now` is `block.timestamp`.  Checks run in source
order: zero seller, zero amount, value mismatch; then the counter is
post-incremented and the record stored. -/
def createEscrow (entered : Bool) (caller seller amount fundsProvided now : Nat)
    (s : Ledger) : Except Err (Ledger × Nat) :=
  if entered then .error .ReentrancyGuardReentrantCall
  else if seller = 0 then .error .InvalidSeller
  else if amount = 0 then .error .InvalidAmount
  else if fundsProvided ≠ amount then .error .AmountMismatch
  else
    let escrowId := s.escrowIdCounter
    .ok ({ escrowIdCounter := escrowId + 1,
           escrows := (escrowId,
             { buyer := caller, seller := seller, amount := amount,
               createdAt := now, state := .Active }) :: s.escrows,
           balance := s.balance + fundsProvided }, escrowId)

/-- The storage and balance visible while the outbound transfer of
`releaseToSeller` is in flight: the record was set to `Released` before
the transfer (line 154, CEI pattern) and `amount` has left the contract
with the call (line 159).  When the transfer succeeds this is also the
committed post-state of the call. -/
def releaseMidTransfer (escrowId : Nat) (escrow : Escrow) (s : Ledger) : Ledger :=
  { s with
      escrows := setEscrow escrowId { escrow with state := .Released } s.escrows,
      balance := s.balance - escrow.amount }

/-- Analogue of `releaseMidTransfer` for `refundBuyer` (lines 186, 191). -/
def refundMidTransfer (escrowId : Nat) (escrow : Escrow) (s : Ledger) : Ledger :=
  { s with
      escrows := setEscrow escrowId { escrow with state := .Refunded } s.escrows,
      balance := s.balance - escrow.amount }

/-- Function `releaseToSeller(escrowId)` (lines 143-163).  Checks in
source order: missing record (zero buyer), non-`Active` state, caller not
the buyer; then the state is set to `Released` and the transfer
attempted.  A failed transfer reverts `TransferFailed`, which rolls the
whole frame back, so the `.error` leaves no post-state. -/
def releaseToSeller (entered : Bool) (caller escrowId now : Nat) (transferOk : Bool)
    (s : Ledger) : Except Err Ledger :=
  if entered then .error .ReentrancyGuardReentrantCall
  else
    match findEscrow escrowId s.escrows with
    | none => .error .EscrowNotFound
    | some escrow =>
        if escrow.buyer = 0 then .error .EscrowNotFound
        else if escrow.state ≠ .Active then .error .EscrowNotActive
        else if caller ≠ escrow.buyer then .error .OnlyBuyer
        else if transferOk then .ok (releaseMidTransfer escrowId escrow s)
        else .error .TransferFailed

/-- Function `refundBuyer(escrowId)` (lines 172-195).  Checks in source
order: missing record, non-`Active` state, then authorization: the caller
is the seller or `now >= createdAt + ESCROW_TIMEOUT`; then the state is
set to `Refunded` and the transfer attempted, with the same revert
semantics as `releaseToSeller`. -/
def refundBuyer (entered : Bool) (caller escrowId now : Nat) (transferOk : Bool)
    (s : Ledger) : Except Err Ledger :=
  if entered then .error .ReentrancyGuardReentrantCall
  else
    match findEscrow escrowId s.escrows with
    | none => .error .EscrowNotFound
    | some escrow =>
        if escrow.buyer = 0 then .error .EscrowNotFound
        else if escrow.state ≠ .Active then .error .EscrowNotActive
        else if caller ≠ escrow.seller ∧ now < escrow.createdAt + ESCROW_TIMEOUT then
          .error .RefundNotAllowed
        else if transferOk then .ok (refundMidTransfer escrowId escrow s)
        else .error .TransferFailed

/-- View `getEscrow(escrowId)` (lines 208-225): returns the record, or
reverts `EscrowNotFound` when the slot is unwritten or holds the
zero-buyer sentinel. -/
def getEscrow (escrowId : Nat) (s : Ledger) : Except Err Escrow :=
  match findEscrow escrowId s.escrows with
  | none => .error .EscrowNotFound
  | some escrow => if escrow.buyer = 0 then .error .EscrowNotFound else .ok escrow

/-- View `getEscrowCount()` (lines 231-233). -/
def getEscrowCount (s : Ledger) : Nat := s.escrowIdCounter

/-- View `isTimedOut(escrowId)` (lines 240-245). -/
def isTimedOut (escrowId now : Nat) (s : Ledger) : Except Err Bool :=
  match findEscrow escrowId s.escrows with
  | none => .error .EscrowNotFound
  | some escrow =>
      if escrow.buyer = 0 then .error .EscrowNotFound
      else .ok (decide (escrow.createdAt + ESCROW_TIMEOUT ≤ now))

/-- View `timeUntilTimeout(escrowId)` (lines 252-259). -/
def timeUntilTimeout (escrowId now : Nat) (s : Ledger) : Except Err Nat :=
  match findEscrow escrowId s.escrows with
  | none => .error .EscrowNotFound
  | some escrow =>
      if escrow.buyer = 0 then .error .EscrowNotFound
      else if escrow.createdAt + ESCROW_TIMEOUT ≤ now then .ok 0
      else .ok (escrow.createdAt + ESCROW_TIMEOUT - now)

/-- Observable effect of a top-level `createEscrow` transaction: on
success the new storage, on revert the unchanged pre-call storage
together with the revert reason (EVM revert semantics). -/
def createCall (caller seller amount fundsProvided now : Nat) (w : Ledger) :
    Ledger × Option Err :=
  match createEscrow false caller seller amount fundsProvided now w with
  | .ok (w', _) => (w', none)
  | .error e => (w, some e)

/-- Observable effect of a top-level `releaseToSeller` transaction. -/
def releaseCall (caller escrowId now : Nat) (transferOk : Bool) (w : Ledger) :
    Ledger × Option Err :=
  match releaseToSeller false caller escrowId now transferOk w with
  | .ok w' => (w', none)
  | .error e => (w, some e)

/-- Observable effect of a top-level `refundBuyer` transaction. -/
def refundCall (caller escrowId now : Nat) (transferOk : Bool) (w : Ledger) :
    Ledger × Option Err :=
  match refundBuyer false caller escrowId now transferOk w with
  | .ok w' => (w', none)
  | .error e => (w, some e)

/-- One successful top-level mutating transaction against the contract
(reverted transactions leave the storage unchanged, so they need no
transition). -/
inductive Step (s s' : Ledger) : Prop where
  | create (caller seller amount fundsProvided now escrowId : Nat)
      (h : createEscrow false caller seller amount fundsProvided now s = .ok (s', escrowId)) :
      Step s s'
  | release (caller escrowId now : Nat) (transferOk : Bool)
      (h : releaseToSeller false caller escrowId now transferOk s = .ok s') :
      Step s s'
  | refund (caller escrowId now : Nat) (transferOk : Bool)
      (h : refundBuyer false caller escrowId now transferOk s = .ok s') :
      Step s s'

/-- Reflexive-transitive closure of `Step`. -/
inductive Steps (s : Ledger) : Ledger → Prop where
  | refl : Steps s s
  | tail {t u : Ledger} (hs : Steps s t) (h : Step t u) : Steps s u

/-- Ledgers reachable from a fresh deployment by any sequence of
successful transactions. -/
def Reachable (s : Ledger) : Prop := Steps initLedger s

/-- Storage invariant maintained by every transaction: the written keys
are exactly `0, ..., escrowIdCounter - 1` (newest first), the custodied
balance equals the sum of `amount` over `Active` records, and every
stored record has a nonzero seller and a positive amount. -/
structure Inv (s : Ledger) : Prop where
  keys : s.escrows.map Prod.fst = (List.range s.escrowIdCounter).reverse
  bal : s.balance = activeSum s.escrows
  records : ∀ p ∈ s.escrows, p.2.seller ≠ 0 ∧ 0 < p.2.amount

/-- Sample record for concrete instantiations: escrow created by buyer 1
for seller 2 with amount 5 at time 0. -/
def rec1 : Escrow :=
  { buyer := 1, seller := 2, amount := 5, createdAt := 0, state := .Active }

/-- The record `rec1` after a successful release. -/
def rec1r : Escrow :=
  { buyer := 1, seller := 2, amount := 5, createdAt := 0, state := .Released }

/-- Ledger holding exactly `rec1`, as produced by one `createEscrow` on a
fresh deployment. -/
def w1 : Ledger := ⟨1, [(0, rec1)], 5⟩

/-- Ledger `w1` after `rec1` is released. -/
def w2 : Ledger := ⟨1, [(0, rec1r)], 0⟩

/-- Ledger after a second create (buyer 3, seller 4, amount 7, time 9) on
top of `w1`. -/
def w1b : Ledger :=
  ⟨2, [(1, { buyer := 3, seller := 4, amount := 7, createdAt := 9, state := .Active }),
       (0, rec1)], 12⟩

section ListLemmas

variable {escrowId : Nat} {e v : Escrow} {l : List (Nat × Escrow)}

theorem findEscrow_mem (h : findEscrow escrowId l = some e) : (escrowId, e) ∈ l := by
  induction l with
  | nil => simp [findEscrow] at h
  | cons p rest ih =>
      obtain ⟨k, w⟩ := p
      by_cases hk : k = escrowId
      · subst hk
        simp [findEscrow] at h
        simp [h]
      · simp [findEscrow, hk] at h
        exact List.mem_cons_of_mem _ (ih h)

theorem findEscrow_mem_keys (h : findEscrow escrowId l = some e) :
    escrowId ∈ l.map Prod.fst :=
  List.mem_map.mpr ⟨(escrowId, e), findEscrow_mem h, rfl⟩

theorem findEscrow_cons_ne {k : Nat} (hk : k ≠ escrowId) :
    findEscrow escrowId ((k, v) :: l) = findEscrow escrowId l := by
  simp [findEscrow, hk]

theorem findEscrow_setEscrow_self (h : findEscrow escrowId l = some e) :
    findEscrow escrowId (setEscrow escrowId v l) = some v := by
  induction l with
  | nil => simp [findEscrow] at h
  | cons p rest ih =>
      obtain ⟨k, w⟩ := p
      by_cases hk : k = escrowId
      · subst hk
        simp [setEscrow, findEscrow]
      · simp [findEscrow, hk] at h
        simp [setEscrow, findEscrow, hk]
        exact ih h

theorem findEscrow_setEscrow_ne {k : Nat} (hk : k ≠ escrowId) :
    findEscrow k (setEscrow escrowId v l) = findEscrow k l := by
  induction l with
  | nil => simp [setEscrow]
  | cons p rest ih =>
      obtain ⟨k', w⟩ := p
      by_cases hk' : k' = escrowId
      · subst hk'
        simp [setEscrow, findEscrow, Ne.symm hk]
      · simp only [setEscrow, if_neg hk']
        by_cases hkk : k' = k
        · simp [findEscrow, hkk]
        · rw [findEscrow_cons_ne hkk, findEscrow_cons_ne hkk]
          exact ih

theorem setEscrow_map_fst :
    (setEscrow escrowId v l).map Prod.fst = l.map Prod.fst := by
  induction l with
  | nil => simp [setEscrow]
  | cons p rest ih =>
      obtain ⟨k, w⟩ := p
      by_cases hk : k = escrowId
      · simp [setEscrow, hk]
      · simp [setEscrow, hk, ih]

theorem mem_setEscrow {p : Nat × Escrow} (h : p ∈ setEscrow escrowId v l) :
    p ∈ l ∨ p.2 = v := by
  induction l with
  | nil => simp [setEscrow] at h
  | cons q rest ih =>
      obtain ⟨k, w⟩ := q
      by_cases hk : k = escrowId
      · simp [setEscrow, hk] at h
        rcases h with h | h
        · right; simp [h]
        · left; exact List.mem_cons_of_mem _ h
      · simp only [setEscrow, if_neg hk, List.mem_cons] at h
        rcases h with h | h
        · left; simp [h]
        · rcases ih h with h' | h'
          · left; exact List.mem_cons_of_mem _ h'
          · right; exact h'

theorem activeSum_setEscrow (h : findEscrow escrowId l = some e) :
    activeSum (setEscrow escrowId v l) + (if e.state = .Active then e.amount else 0)
      = activeSum l + (if v.state = .Active then v.amount else 0) := by
  induction l with
  | nil => simp [findEscrow] at h
  | cons p rest ih =>
      obtain ⟨k, w⟩ := p
      by_cases hk : k = escrowId
      · subst hk
        simp [findEscrow] at h
        subst h
        simp [setEscrow, activeSum]
        omega
      · simp [findEscrow, hk] at h
        simp only [setEscrow, if_neg hk, activeSum]
        have := ih h
        omega

theorem activeAmt_le_activeSum (h : findEscrow escrowId l = some e) :
    (if e.state = .Active then e.amount else 0) ≤ activeSum l := by
  induction l with
  | nil => simp [findEscrow] at h
  | cons p rest ih =>
      obtain ⟨k, w⟩ := p
      by_cases hk : k = escrowId
      · subst hk
        simp [findEscrow] at h
        subst h
        simp [activeSum]
      · simp [findEscrow, hk] at h
        have := ih h
        simp only [activeSum]
        omega

end ListLemmas

section Characterizations

variable {caller seller amount funds now escrowId : Nat} {tOk : Bool}
variable {s s' : Ledger} {e : Escrow}

theorem getEscrow_ok_iff :
    getEscrow escrowId s = .ok e ↔
      findEscrow escrowId s.escrows = some e ∧ e.buyer ≠ 0 := by
  unfold getEscrow
  cases hf : findEscrow escrowId s.escrows with
  | none => simp
  | some w =>
      by_cases hb : w.buyer = 0
      · simp only [if_pos hb]
        constructor
        · intro h; cases h
        · rintro ⟨hw, hbe⟩
          cases hw
          exact absurd hb hbe
      · simp only [if_neg hb]
        constructor
        · intro h; cases h; exact ⟨rfl, hb⟩
        · rintro ⟨hw, _⟩; cases hw; rfl

theorem createEscrow_ok_iff :
    createEscrow false caller seller amount funds now s = .ok (s', escrowId) ↔
      seller ≠ 0 ∧ amount ≠ 0 ∧ funds = amount ∧ escrowId = s.escrowIdCounter ∧
      s' = { escrowIdCounter := s.escrowIdCounter + 1,
             escrows := (s.escrowIdCounter,
               { buyer := caller, seller := seller, amount := amount,
                 createdAt := now, state := .Active }) :: s.escrows,
             balance := s.balance + funds } := by
  constructor
  · intro h
    by_cases h1 : seller = 0
    · simp [createEscrow, h1] at h
    · by_cases h2 : amount = 0
      · simp [createEscrow, h1, h2] at h
      · by_cases h3 : funds = amount
        · subst h3
          simp only [createEscrow, Bool.false_eq_true, if_false, if_neg h1, if_neg h2,
            ne_eq, not_true_eq_false, ite_false, Except.ok.injEq, Prod.mk.injEq] at h
          exact ⟨h1, h2, rfl, h.2.symm, h.1.symm⟩
        · simp [createEscrow, h1, h2, h3] at h
  · rintro ⟨h1, h2, rfl, rfl, rfl⟩
    simp [createEscrow, h1, h2]

theorem release_notFound (hf : findEscrow escrowId s.escrows = none) :
    releaseToSeller false caller escrowId now tOk s = .error .EscrowNotFound := by
  simp [releaseToSeller, hf]

theorem release_notActive (hg : getEscrow escrowId s = .ok e) (hs : e.state ≠ .Active) :
    releaseToSeller false caller escrowId now tOk s = .error .EscrowNotActive := by
  obtain ⟨hf, hb⟩ := getEscrow_ok_iff.mp hg
  simp [releaseToSeller, hf, hb, hs]

theorem release_onlyBuyer (hg : getEscrow escrowId s = .ok e) (hs : e.state = .Active)
    (hc : caller ≠ e.buyer) :
    releaseToSeller false caller escrowId now tOk s = .error .OnlyBuyer := by
  obtain ⟨hf, hb⟩ := getEscrow_ok_iff.mp hg
  simp [releaseToSeller, hf, hb, hs, hc]

theorem release_transferFailed (hg : getEscrow escrowId s = .ok e)
    (hs : e.state = .Active) (hc : caller = e.buyer) :
    releaseToSeller false caller escrowId now false s = .error .TransferFailed := by
  obtain ⟨hf, hb⟩ := getEscrow_ok_iff.mp hg
  simp [releaseToSeller, hf, hb, hs, hc]

theorem release_ok (hg : getEscrow escrowId s = .ok e) (hs : e.state = .Active)
    (hc : caller = e.buyer) :
    releaseToSeller false caller escrowId now true s
      = .ok (releaseMidTransfer escrowId e s) := by
  obtain ⟨hf, hb⟩ := getEscrow_ok_iff.mp hg
  simp [releaseToSeller, hf, hb, hs, hc]

theorem release_ok_inv (hg : getEscrow escrowId s = .ok e) (hs : e.state = .Active)
    (h : releaseToSeller false caller escrowId now tOk s = .ok s') :
    caller = e.buyer ∧ tOk = true ∧ s' = releaseMidTransfer escrowId e s := by
  by_cases hc : caller = e.buyer
  · cases tOk with
    | false => rw [release_transferFailed hg hs hc] at h; cases h
    | true =>
        rw [release_ok hg hs hc] at h
        cases h
        exact ⟨hc, rfl, rfl⟩
  · rw [release_onlyBuyer hg hs hc] at h; cases h

theorem release_ok_general_inv (h : releaseToSeller false caller escrowId now tOk s = .ok s') :
    ∃ e, findEscrow escrowId s.escrows = some e ∧ e.buyer ≠ 0 ∧ e.state = .Active ∧
      caller = e.buyer ∧ tOk = true ∧ s' = releaseMidTransfer escrowId e s := by
  cases hf : findEscrow escrowId s.escrows with
  | none => rw [release_notFound hf] at h; cases h
  | some e =>
      by_cases hb : e.buyer = 0
      · simp [releaseToSeller, hf, hb] at h
      · by_cases hs' : e.state = .Active
        · have hg : getEscrow escrowId s = .ok e := getEscrow_ok_iff.mpr ⟨hf, hb⟩
          obtain ⟨hc, ht, heq⟩ := release_ok_inv hg hs' h
          exact ⟨e, rfl, hb, hs', hc, ht, heq⟩
        · have hg : getEscrow escrowId s = .ok e := getEscrow_ok_iff.mpr ⟨hf, hb⟩
          rw [release_notActive hg hs'] at h; cases h

theorem refund_notFound (hf : findEscrow escrowId s.escrows = none) :
    refundBuyer false caller escrowId now tOk s = .error .EscrowNotFound := by
  simp [refundBuyer, hf]

theorem refund_notActive (hg : getEscrow escrowId s = .ok e) (hs : e.state ≠ .Active) :
    refundBuyer false caller escrowId now tOk s = .error .EscrowNotActive := by
  obtain ⟨hf, hb⟩ := getEscrow_ok_iff.mp hg
  simp [refundBuyer, hf, hb, hs]

theorem refund_notAllowed (hg : getEscrow escrowId s = .ok e) (hs : e.state = .Active)
    (hc : caller ≠ e.seller) (ht : now < e.createdAt + ESCROW_TIMEOUT) :
    refundBuyer false caller escrowId now tOk s = .error .RefundNotAllowed := by
  obtain ⟨hf, hb⟩ := getEscrow_ok_iff.mp hg
  simp [refundBuyer, hf, hb, hs, hc, ht]

theorem refund_transferFailed (hg : getEscrow escrowId s = .ok e) (hs : e.state = .Active)
    (hauth : caller = e.seller ∨ e.createdAt + ESCROW_TIMEOUT ≤ now) :
    refundBuyer false caller escrowId now false s = .error .TransferFailed := by
  obtain ⟨hf, hb⟩ := getEscrow_ok_iff.mp hg
  rcases hauth with hc | ht
  · simp [refundBuyer, hf, hb, hs, hc]
  · simp [refundBuyer, hf, hb, hs, Nat.not_lt.mpr ht]

theorem refund_ok (hg : getEscrow escrowId s = .ok e) (hs : e.state = .Active)
    (hauth : caller = e.seller ∨ e.createdAt + ESCROW_TIMEOUT ≤ now) :
    refundBuyer false caller escrowId now true s
      = .ok (refundMidTransfer escrowId e s) := by
  obtain ⟨hf, hb⟩ := getEscrow_ok_iff.mp hg
  rcases hauth with hc | ht
  · simp [refundBuyer, hf, hb, hs, hc]
  · simp [refundBuyer, hf, hb, hs, Nat.not_lt.mpr ht]

theorem refund_ok_inv (hg : getEscrow escrowId s = .ok e) (hs : e.state = .Active)
    (h : refundBuyer false caller escrowId now tOk s = .ok s') :
    (caller = e.seller ∨ e.createdAt + ESCROW_TIMEOUT ≤ now) ∧ tOk = true ∧
      s' = refundMidTransfer escrowId e s := by
  by_cases hauth : caller = e.seller ∨ e.createdAt + ESCROW_TIMEOUT ≤ now
  · cases tOk with
    | false => rw [refund_transferFailed hg hs hauth] at h; cases h
    | true =>
        rw [refund_ok hg hs hauth] at h
        cases h
        exact ⟨hauth, rfl, rfl⟩
  · push_neg at hauth
    rw [refund_notAllowed hg hs hauth.1 hauth.2] at h
    cases h

theorem refund_ok_general_inv (h : refundBuyer false caller escrowId now tOk s = .ok s') :
    ∃ e, findEscrow escrowId s.escrows = some e ∧ e.buyer ≠ 0 ∧ e.state = .Active ∧
      (caller = e.seller ∨ e.createdAt + ESCROW_TIMEOUT ≤ now) ∧ tOk = true ∧
      s' = refundMidTransfer escrowId e s := by
  cases hf : findEscrow escrowId s.escrows with
  | none => rw [refund_notFound hf] at h; cases h
  | some e =>
      by_cases hb : e.buyer = 0
      · simp [refundBuyer, hf, hb] at h
      · by_cases hs' : e.state = .Active
        · have hg : getEscrow escrowId s = .ok e := getEscrow_ok_iff.mpr ⟨hf, hb⟩
          obtain ⟨hauth, ht, heq⟩ := refund_ok_inv hg hs' h
          exact ⟨e, rfl, hb, hs', hauth, ht, heq⟩
        · have hg : getEscrow escrowId s = .ok e := getEscrow_ok_iff.mpr ⟨hf, hb⟩
          rw [refund_notActive hg hs'] at h; cases h

end Characterizations

section Invariants

variable {caller seller amount funds now escrowId : Nat} {tOk : Bool}
variable {s s' t : Ledger} {e : Escrow}

theorem inv_init : Inv initLedger := by
  refine ⟨?_, ?_, ?_⟩ <;> simp [initLedger, activeSum]

theorem inv_create (hinv : Inv s)
    (h : createEscrow false caller seller amount funds now s = .ok (s', escrowId)) :
    Inv s' := by
  obtain ⟨h1, h2, h3, -, rfl⟩ := createEscrow_ok_iff.mp h
  refine ⟨?_, ?_, ?_⟩
  · simp [List.range_succ, hinv.keys]
  · have hb := hinv.bal
    simp [activeSum]
    omega
  · intro p hp
    rcases List.mem_cons.mp hp with hp | hp
    · subst hp
      exact ⟨h1, Nat.pos_of_ne_zero h2⟩
    · exact hinv.records p hp

theorem inv_release (hinv : Inv s)
    (h : releaseToSeller false caller escrowId now tOk s = .ok s') : Inv s' := by
  obtain ⟨e, hf, hb, hsA, -, -, rfl⟩ := release_ok_general_inv h
  refine ⟨?_, ?_, ?_⟩
  · simp [releaseMidTransfer, setEscrow_map_fst, hinv.keys]
  · have hsum := activeSum_setEscrow (v := { e with state := .Released }) hf
    have hle := activeAmt_le_activeSum hf
    have hbal := hinv.bal
    simp [hsA] at hsum hle
    simp [releaseMidTransfer]
    omega
  · intro p hp
    have hp2 : p ∈ setEscrow escrowId { e with state := .Released } s.escrows := hp
    rcases mem_setEscrow hp2 with hp' | hp'
    · exact hinv.records p hp'
    · have he := hinv.records _ (findEscrow_mem hf)
      rw [hp']
      exact ⟨he.1, he.2⟩

theorem inv_refund (hinv : Inv s)
    (h : refundBuyer false caller escrowId now tOk s = .ok s') : Inv s' := by
  obtain ⟨e, hf, hb, hsA, -, -, rfl⟩ := refund_ok_general_inv h
  refine ⟨?_, ?_, ?_⟩
  · simp [refundMidTransfer, setEscrow_map_fst, hinv.keys]
  · have hsum := activeSum_setEscrow (v := { e with state := .Refunded }) hf
    have hle := activeAmt_le_activeSum hf
    have hbal := hinv.bal
    simp [hsA] at hsum hle
    simp [refundMidTransfer]
    omega
  · intro p hp
    have hp2 : p ∈ setEscrow escrowId { e with state := .Refunded } s.escrows := hp
    rcases mem_setEscrow hp2 with hp' | hp'
    · exact hinv.records p hp'
    · have he := hinv.records _ (findEscrow_mem hf)
      rw [hp']
      exact ⟨he.1, he.2⟩

theorem inv_step (hinv : Inv s) (h : Step s s') : Inv s' := by
  cases h with
  | create caller seller amount funds now escrowId hc => exact inv_create hinv hc
  | release caller escrowId now tOk hr => exact inv_release hinv hr
  | refund caller escrowId now tOk hr => exact inv_refund hinv hr

theorem inv_steps (hinv : Inv s) (h : Steps s t) : Inv t := by
  induction h with
  | refl => exact hinv
  | tail hs hstep ih => exact inv_step ih hstep

theorem reachable_inv (h : Reachable s) : Inv s := inv_steps inv_init h

theorem terminal_findEscrow_step (hinv : Inv s) (h : Step s s')
    (hf : findEscrow escrowId s.escrows = some e) (hterm : e.state ≠ .Active) :
    findEscrow escrowId s'.escrows = some e := by
  cases h with
  | create caller seller amount funds now id hc =>
      obtain ⟨-, -, -, -, rfl⟩ := createEscrow_ok_iff.mp hc
      have hmem := findEscrow_mem_keys hf
      rw [hinv.keys] at hmem
      have hlt : escrowId < s.escrowIdCounter := by simpa using hmem
      exact (findEscrow_cons_ne (by omega)).trans hf
  | release caller id now tOk hr =>
      obtain ⟨w, hfw, -, hwA, -, -, rfl⟩ := release_ok_general_inv hr
      by_cases hid : id = escrowId
      · subst hid
        rw [hf] at hfw
        cases hfw
        exact absurd hwA hterm
      · exact (findEscrow_setEscrow_ne (Ne.symm hid)).trans hf
  | refund caller id now tOk hr =>
      obtain ⟨w, hfw, -, hwA, -, -, rfl⟩ := refund_ok_general_inv hr
      by_cases hid : id = escrowId
      · subst hid
        rw [hf] at hfw
        cases hfw
        exact absurd hwA hterm
      · exact (findEscrow_setEscrow_ne (Ne.symm hid)).trans hf

theorem terminal_findEscrow (hinv : Inv s) (h : Steps s t)
    (hf : findEscrow escrowId s.escrows = some e) (hterm : e.state ≠ .Active) :
    findEscrow escrowId t.escrows = some e := by
  induction h with
  | refl => exact hf
  | tail hs hstep ih =>
      exact terminal_findEscrow_step (inv_steps hinv hs) hstep ih hterm

end Invariants

section SampleReachability

theorem reach_w1 : Reachable w1 :=
  Steps.tail Steps.refl (Step.create 1 2 5 5 0 0 (by decide))

theorem reach_w2 : Reachable w2 :=
  Steps.tail reach_w1 (Step.release 1 0 0 true (by decide))

end SampleReachability

section Claims

/-- C5: create rejects a zero seller with `InvalidSeller`, a zero amount
with `InvalidAmount`, and mismatched funds with `AmountMismatch`, in that
priority order; otherwise it succeeds and an immediate `getEscrow` on the
returned id yields exactly the record `(caller, seller, amount, now,
Active)`.  The hypothesis `caller ≠ 0` reflects the execution
environment: `msg.sender` is never the zero address in an external call
(the contract itself uses `buyer = 0` as its not-found sentinel). -/
theorem create_validation_spec (caller seller amount funds now : Nat) (s : Ledger)
    (hc : caller ≠ 0) :
    (seller = 0 →
      createEscrow false caller seller amount funds now s = .error .InvalidSeller) ∧
    (seller ≠ 0 → amount = 0 →
      createEscrow false caller seller amount funds now s = .error .InvalidAmount) ∧
    (seller ≠ 0 → amount ≠ 0 → funds ≠ amount →
      createEscrow false caller seller amount funds now s = .error .AmountMismatch) ∧
    (seller ≠ 0 → amount ≠ 0 → funds = amount →
      ∃ s' escrowId,
        createEscrow false caller seller amount funds now s = .ok (s', escrowId) ∧
        getEscrow escrowId s' =
          .ok { buyer := caller, seller := seller, amount := amount,
                createdAt := now, state := .Active }) := by
  refine ⟨?_, ?_, ?_, ?_⟩
  · intro h1
    simp [createEscrow, h1]
  · intro h1 h2
    simp [createEscrow, h1, h2]
  · intro h1 h2 h3
    simp [createEscrow, h1, h2, h3]
  · intro h1 h2 h3
    subst h3
    refine ⟨_, _, createEscrow_ok_iff.mpr ⟨h1, h2, rfl, rfl, rfl⟩, ?_⟩
    simp [getEscrow, findEscrow, hc]

theorem create_validation_spec_witness :
    ∃ s' escrowId, createEscrow false 3 2 5 5 7 initLedger = .ok (s', escrowId) ∧
      getEscrow escrowId s' =
        .ok { buyer := 3, seller := 2, amount := 5,
              createdAt := 7, state := .Active } :=
  (create_validation_spec 3 2 5 5 7 initLedger (by decide)).2.2.2
    (by decide) (by decide) rfl

/-- C6: on an existing `Active` record, release (with the outbound
transfer succeeding, the outcome C1 covers separately) succeeds exactly
when the caller is the buyer, and every other caller gets `OnlyBuyer`
whatever the transfer oracle would do; an unknown id gives
`EscrowNotFound`, and a terminal record gives `EscrowNotActive`. -/
theorem release_authorization_spec (s : Ledger) (caller escrowId now : Nat)
    (tOk : Bool) (e : Escrow) :
    (findEscrow escrowId s.escrows = none →
      releaseToSeller false caller escrowId now tOk s = .error .EscrowNotFound) ∧
    (getEscrow escrowId s = .ok e → e.state ≠ .Active →
      releaseToSeller false caller escrowId now tOk s = .error .EscrowNotActive) ∧
    (getEscrow escrowId s = .ok e → e.state = .Active →
      ((∃ s', releaseToSeller false caller escrowId now true s = .ok s') ↔
          caller = e.buyer) ∧
      (caller ≠ e.buyer →
        releaseToSeller false caller escrowId now tOk s = .error .OnlyBuyer)) := by
  refine ⟨release_notFound, release_notActive, ?_⟩
  intro hg hs
  refine ⟨⟨?_, ?_⟩, ?_⟩
  · rintro ⟨s', h⟩
    exact (release_ok_inv hg hs h).1
  · intro hbuyer
    exact ⟨_, release_ok hg hs hbuyer⟩
  · intro hbuyer
    exact release_onlyBuyer hg hs hbuyer

theorem release_authorization_spec_witness :
    releaseToSeller false 9 0 0 true w1 = .error .OnlyBuyer ∧
    (∃ s', releaseToSeller false 1 0 0 true w1 = .ok s') :=
  ⟨((release_authorization_spec w1 9 0 0 true rec1).2.2 (by decide) rfl).2 (by decide),
   ((release_authorization_spec w1 1 0 0 true rec1).2.2 (by decide) rfl).1.mpr rfl⟩

/-- C7: on an existing `Active` record, refund (transfer succeeding)
succeeds exactly when the caller is the seller or
`createdAt + ESCROW_TIMEOUT ≤ now`, and otherwise fails
`RefundNotAllowed` whatever the transfer oracle would do; at the boundary
`createdAt + 24h - 1` a non-seller fails `RefundNotAllowed`, while at
exactly `createdAt + 24h` any caller succeeds. -/
theorem refund_authorization_spec (s : Ledger) (caller escrowId now : Nat) (e : Escrow)
    (hg : getEscrow escrowId s = .ok e) (hs : e.state = .Active) :
    ((∃ s', refundBuyer false caller escrowId now true s = .ok s') ↔
      (caller = e.seller ∨ e.createdAt + ESCROW_TIMEOUT ≤ now)) ∧
    (caller ≠ e.seller → now < e.createdAt + ESCROW_TIMEOUT →
      ∀ tOk, refundBuyer false caller escrowId now tOk s = .error .RefundNotAllowed) ∧
    (∀ caller2, caller2 ≠ e.seller →
      refundBuyer false caller2 escrowId (e.createdAt + ESCROW_TIMEOUT - 1) true s
        = .error .RefundNotAllowed) ∧
    (∀ caller2, ∃ s',
      refundBuyer false caller2 escrowId (e.createdAt + ESCROW_TIMEOUT) true s
        = .ok s') := by
  have htpos : 0 < ESCROW_TIMEOUT := by decide
  refine ⟨⟨?_, ?_⟩, ?_, ?_, ?_⟩
  · rintro ⟨s', h⟩
    exact (refund_ok_inv hg hs h).1
  · intro hauth
    exact ⟨_, refund_ok hg hs hauth⟩
  · intro hc ht tOk
    exact refund_notAllowed hg hs hc ht
  · intro caller2 hc2
    exact refund_notAllowed hg hs hc2 (by omega)
  · intro caller2
    exact ⟨_, refund_ok hg hs (Or.inr le_rfl)⟩

theorem refund_authorization_spec_witness :
    refundBuyer false 9 0 86399 true w1 = .error .RefundNotAllowed ∧
    (∃ s', refundBuyer false 9 0 86400 true w1 = .ok s') :=
  ⟨(refund_authorization_spec w1 9 0 0 rec1 (by decide) rfl).2.2.1 9 (by decide),
   (refund_authorization_spec w1 9 0 0 rec1 (by decide) rfl).2.2.2 9⟩

/-- C3: a record observed terminal (non-`Active`) in a reachable ledger
stays byte-for-byte unchanged under every further sequence of successful
transactions, and on any such later ledger every release or refund of
that id, by any caller at any time and under either transfer outcome,
fails with `EscrowNotActive`; hence at most one of release/refund ever
succeeds for a record. -/
theorem terminal_state_forever (s t : Ledger) (escrowId : Nat) (e : Escrow)
    (hreach : Reachable s) (hsteps : Steps s t)
    (hg : getEscrow escrowId s = .ok e) (hterm : e.state ≠ .Active) :
    getEscrow escrowId t = .ok e ∧
    (∀ caller now tOk,
      releaseToSeller false caller escrowId now tOk t = .error .EscrowNotActive ∧
      refundBuyer false caller escrowId now tOk t = .error .EscrowNotActive) := by
  obtain ⟨hf, hb⟩ := getEscrow_ok_iff.mp hg
  have hf' := terminal_findEscrow (reachable_inv hreach) hsteps hf hterm
  have hg' : getEscrow escrowId t = .ok e := getEscrow_ok_iff.mpr ⟨hf', hb⟩
  exact ⟨hg', fun caller now tOk =>
    ⟨release_notActive hg' hterm, refund_notActive hg' hterm⟩⟩

theorem terminal_state_forever_witness :
    releaseToSeller false 1 0 99 true w2 = .error .EscrowNotActive ∧
    refundBuyer false 2 0 99 true w2 = .error .EscrowNotActive :=
  ⟨((terminal_state_forever w2 w2 0 rec1r reach_w2 Steps.refl
      (by decide) (by decide)).2 1 99 true).1,
   ((terminal_state_forever w2 w2 0 rec1r reach_w2 Steps.refl
      (by decide) (by decide)).2 2 99 true).2⟩

/-- C4: in every reachable ledger, the custodied balance equals the sum
of `amount` over the `Active` records. -/
theorem custody_balance_invariant (s : Ledger) (h : Reachable s) :
    s.balance = activeSum s.escrows :=
  (reachable_inv h).bal

theorem custody_balance_invariant_witness :
    w2.balance = activeSum w2.escrows :=
  custody_balance_invariant w2 reach_w2

/-- C9: every record that exists in the ledger (that is, that `getEscrow`
returns; the contract itself equates existence with a nonzero `buyer`
field) has a nonzero buyer and a nonzero seller, in every reachable
ledger. -/
theorem parties_nonzero (s : Ledger) (escrowId : Nat) (e : Escrow)
    (h : Reachable s) (hg : getEscrow escrowId s = .ok e) :
    e.buyer ≠ 0 ∧ e.seller ≠ 0 := by
  obtain ⟨hf, hb⟩ := getEscrow_ok_iff.mp hg
  exact ⟨hb, ((reachable_inv h).records _ (findEscrow_mem hf)).1⟩

theorem parties_nonzero_witness : rec1.buyer ≠ 0 ∧ rec1.seller ≠ 0 :=
  parties_nonzero w1 0 rec1 reach_w1 (by decide)

/-- C8: in every reachable ledger the written ids are exactly
`0, ..., escrowIdCounter - 1` (newest first) — distinct, gap-free, never
reused, never two records per id — the number of records equals the
counter, and each further successful create returns the current counter
value and increments it by one; so the n-th successful create returns
id n. -/
theorem escrow_id_assignment (s : Ledger) (h : Reachable s) :
    s.escrows.map Prod.fst = (List.range s.escrowIdCounter).reverse ∧
    s.escrows.length = s.escrowIdCounter ∧
    (∀ caller seller amount funds now s' escrowId,
      createEscrow false caller seller amount funds now s = .ok (s', escrowId) →
        escrowId = s.escrowIdCounter ∧ s'.escrowIdCounter = s.escrowIdCounter + 1) := by
  have hk := (reachable_inv h).keys
  refine ⟨hk, ?_, ?_⟩
  · have hlen := congrArg List.length hk
    simpa using hlen
  · intro caller seller amount funds now s' escrowId hcr
    obtain ⟨-, -, -, hid, rfl⟩ := createEscrow_ok_iff.mp hcr
    exact ⟨hid, rfl⟩

theorem escrow_id_assignment_witness :
    (1 : Nat) = w1.escrowIdCounter ∧ w1b.escrowIdCounter = w1.escrowIdCounter + 1 :=
  (escrow_id_assignment w1 reach_w1).2.2 3 4 7 7 9 w1b 1 (by decide)

/-- C10: whenever a top-level create, release or refund reverts with any
error (including `TransferFailed`), the observable ledger — records,
balance, and the next-id counter — is exactly the pre-call ledger, since
Solidity `revert` rolls back the whole call frame; in particular a failed
create does not advance the counter, so failed creates cannot introduce
id gaps. -/
theorem operations_atomic_on_failure (caller seller amount funds now escrowId : Nat)
    (tOk : Bool) (w : Ledger) :
    (∀ err, (createCall caller seller amount funds now w).2 = some err →
      (createCall caller seller amount funds now w).1 = w) ∧
    (∀ err, (releaseCall caller escrowId now tOk w).2 = some err →
      (releaseCall caller escrowId now tOk w).1 = w) ∧
    (∀ err, (refundCall caller escrowId now tOk w).2 = some err →
      (refundCall caller escrowId now tOk w).1 = w) := by
  refine ⟨?_, ?_, ?_⟩
  · intro err he
    cases h : createEscrow false caller seller amount funds now w with
    | ok p => simp [createCall, h] at he
    | error e2 => simp [createCall, h]
  · intro err he
    cases h : releaseToSeller false caller escrowId now tOk w with
    | ok p => simp [releaseCall, h] at he
    | error e2 => simp [releaseCall, h]
  · intro err he
    cases h : refundBuyer false caller escrowId now tOk w with
    | ok p => simp [refundCall, h] at he
    | error e2 => simp [refundCall, h]

theorem operations_atomic_on_failure_witness :
    (createCall 1 0 5 5 0 w1).2 = some .InvalidSeller ∧
    (createCall 1 0 5 5 0 w1).1 = w1 ∧
    (releaseCall 1 0 0 false w1).2 = some .TransferFailed ∧
    (releaseCall 1 0 0 false w1).1 = w1 :=
  ⟨by decide,
   (operations_atomic_on_failure 1 0 5 5 0 0 false w1).1 .InvalidSeller (by decide),
   by decide,
   (operations_atomic_on_failure 1 0 5 5 0 0 false w1).2.1 .TransferFailed (by decide)⟩

/-- C1 as stated is false on the code: when the outbound transfer of a
release fails, the call reverts `TransferFailed`, and the revert rolls
the `state = Released` write back, so the record is observed `Active`
afterwards, not `Released`.  Concretely, from `w1` (one active escrow,
id 0), a buyer release whose transfer fails reports `TransferFailed`,
yet the post-call record at id 0 is `rec1`, whose state is `Active`. -/
theorem transfer_failure_not_terminal_cex :
    (releaseCall 1 0 0 false w1).2 = some .TransferFailed ∧
    findEscrow 0 (releaseCall 1 0 0 false w1).1.escrows = some rec1 ∧
    rec1.state = .Active ∧ rec1.state ≠ .Released := by decide

/-- C1 amended: if release (or refund) passes its validation and
authorization checks but the outbound transfer fails, the call reports
`TransferFailed` and the whole transaction is rolled back — the record
remains `Active` and the funds remain in custody; the state transition
IS rolled back, not preserved. -/
theorem transfer_failure_reverts (s : Ledger) (caller escrowId now : Nat) (e : Escrow)
    (hg : getEscrow escrowId s = .ok e) (hs : e.state = .Active) :
    (caller = e.buyer →
      releaseToSeller false caller escrowId now false s = .error .TransferFailed ∧
      releaseCall caller escrowId now false s = (s, some .TransferFailed)) ∧
    ((caller = e.seller ∨ e.createdAt + ESCROW_TIMEOUT ≤ now) →
      refundBuyer false caller escrowId now false s = .error .TransferFailed ∧
      refundCall caller escrowId now false s = (s, some .TransferFailed)) := by
  constructor
  · intro hbuyer
    have h : releaseToSeller false caller escrowId now false s = .error .TransferFailed :=
      release_transferFailed hg hs hbuyer
    exact ⟨h, by simp [releaseCall, h]⟩
  · intro hauth
    have h : refundBuyer false caller escrowId now false s = .error .TransferFailed :=
      refund_transferFailed hg hs hauth
    exact ⟨h, by simp [refundCall, h]⟩

theorem transfer_failure_reverts_witness :
    releaseToSeller false 1 0 0 false w1 = .error .TransferFailed ∧
    releaseCall 1 0 0 false w1 = (w1, some .TransferFailed) :=
  (transfer_failure_reverts w1 1 0 0 rec1 (by decide) rfl).1 rfl

/-- C2 as stated is false on the code: a nested call into the ledger made
while the transfer of an in-progress release is in flight fails, but the
failure it observes is the `nonReentrant` guard's own
`ReentrancyGuardReentrantCall` error (the modifier runs before any state
check), not `EscrowNotActive`.  Concretely, at the in-flight state of
releasing escrow 0 from `w1`, a nested release of id 0 returns the guard
error and not `EscrowNotActive`. -/
theorem nested_call_error_cex :
    releaseToSeller true 1 0 0 true (releaseMidTransfer 0 rec1 w1)
      = .error .ReentrancyGuardReentrantCall ∧
    releaseToSeller true 1 0 0 true (releaseMidTransfer 0 rec1 w1)
      ≠ .error .EscrowNotActive := by decide

/-- C2 amended: every nested (reentrant) mutating call made while the
funds transfer of an in-progress release or refund is in flight fails,
rejected by the `nonReentrant` guard with its `ReentrancyGuardReentrantCall`
error; and because the state transition is committed before the external
transfer, a nested release or refund on the same id would fail with
`EscrowNotActive` even if the guard were bypassed. -/
theorem reentrant_calls_rejected (s : Ledger) (caller escrowId now : Nat) (tOk : Bool)
    (e : Escrow) (hg : getEscrow escrowId s = .ok e) (hs : e.state = .Active) :
    (∀ c id n t,
      releaseToSeller true c id n t (releaseMidTransfer escrowId e s)
        = .error .ReentrancyGuardReentrantCall ∧
      refundBuyer true c id n t (releaseMidTransfer escrowId e s)
        = .error .ReentrancyGuardReentrantCall ∧
      releaseToSeller true c id n t (refundMidTransfer escrowId e s)
        = .error .ReentrancyGuardReentrantCall ∧
      refundBuyer true c id n t (refundMidTransfer escrowId e s)
        = .error .ReentrancyGuardReentrantCall) ∧
    (releaseToSeller false caller escrowId now tOk (releaseMidTransfer escrowId e s)
      = .error .EscrowNotActive ∧
     refundBuyer false caller escrowId now tOk (releaseMidTransfer escrowId e s)
      = .error .EscrowNotActive) ∧
    (releaseToSeller false caller escrowId now tOk (refundMidTransfer escrowId e s)
      = .error .EscrowNotActive ∧
     refundBuyer false caller escrowId now tOk (refundMidTransfer escrowId e s)
      = .error .EscrowNotActive) := by
  obtain ⟨hf, hb⟩ := getEscrow_ok_iff.mp hg
  have hgr : getEscrow escrowId (releaseMidTransfer escrowId e s)
      = .ok { e with state := .Released } :=
    getEscrow_ok_iff.mpr ⟨findEscrow_setEscrow_self hf, hb⟩
  have hgf : getEscrow escrowId (refundMidTransfer escrowId e s)
      = .ok { e with state := .Refunded } :=
    getEscrow_ok_iff.mpr ⟨findEscrow_setEscrow_self hf, hb⟩
  have hr : ({ e with state := EscrowState.Released } : Escrow).state ≠ .Active := by
    simp
  have hf2 : ({ e with state := EscrowState.Refunded } : Escrow).state ≠ .Active := by
    simp
  refine ⟨?_, ?_, ?_⟩
  · intro c id n t
    exact ⟨rfl, rfl, rfl, rfl⟩
  · exact ⟨release_notActive hgr hr, refund_notActive hgr hr⟩
  · exact ⟨release_notActive hgf hf2, refund_notActive hgf hf2⟩

theorem reentrant_calls_rejected_witness :
    releaseToSeller true 7 0 3 true (releaseMidTransfer 0 rec1 w1)
      = .error .ReentrancyGuardReentrantCall ∧
    releaseToSeller false 1 0 0 true (releaseMidTransfer 0 rec1 w1)
      = .error .EscrowNotActive :=
  ⟨((reentrant_calls_rejected w1 1 0 0 true rec1 (by decide) rfl).1 7 0 3 true).1,
   (reentrant_calls_rejected w1 1 0 0 true rec1 (by decide) rfl).2.1.1⟩

end Claims

end SimpleEscrow
